import Mathlib

/-!
# Verification of the zypin-mcp tool-dispatch core

Shallow embedding of the zypin-mcp repository (src/index.js, src/tools.js,
src/browser.js). JavaScript values that cross the dispatcher boundary are
modelled as `Json` trees; `JSON.stringify` at the transport boundary is an
injective serialization, so a content item carries the Json value it would
serialize. A thrown JavaScript error is modelled as `Except.error` carrying
the error's `.message`; `Except.ok` is normal return.

The browser session (src/browser.js, class SimpleBrowser) is modelled as
explicit state passing: the mutable fields `browser`/`context`/`page` become
an explicit record, and every call into the underlying Playwright engine is
recorded as an event in a trace. The engine itself is an external
collaborator; an `Env` value fixes the outcome the engine gives to each call
(success or a thrown error message) and the page content it reports.
-/

namespace Zypin

/-- JSON values, as produced and consumed by the tool handlers. -/
inductive Json where
  | null : Json
  | bool : Bool → Json
  | num : Int → Json
  | str : String → Json
  | arr : List Json → Json
  | obj : List (String × Json) → Json
deriving Repr

/-- One property of a tool's input schema: its `type` and `description`
strings, as written literally in src/tools.js. -/
structure PropSchema where
  type : String
  description : String
deriving Repr, DecidableEq

/-- A tool's `inputSchema` from src/tools.js: `type: 'object'` is implicit
(every schema in the source has it), `properties` keeps source order. -/
structure InputSchema where
  properties : List (String × PropSchema)
  required : List String
deriving Repr, DecidableEq

/-- The public face of a tool descriptor: exactly the fields that
`ListToolsRequestSchema` responses expose (src/index.js lines 115-123). -/
structure ToolInfo where
  name : String
  description : String
  inputSchema : InputSchema
deriving Repr, DecidableEq

/-- A registered tool descriptor (src/tools.js): the public fields plus the
handler. A handler takes the argument object and either returns a Json
result or throws (modelled as `Except.error message`). The handler closes
over the shared browser session, so no session state appears in its type
here; the dispatcher passes arguments only, exactly as
`tool.handler(request.params.arguments || {})` does. -/
structure Tool where
  name : String
  description : String
  inputSchema : InputSchema
  handler : Json → Except String Json

/-- One entry of the `content` array of an MCP call-tool response.
`text` holds the Json value that `JSON.stringify` serializes there. -/
structure ContentItem where
  type : String
  text : Json
deriving Repr

/-- An MCP call-tool response as built in src/index.js: a `content` list,
and `isError` which the source either omits (success path, modelled as
`none`) or sets to `true` (catch path, modelled as `some true`). -/
structure CallToolResponse where
  content : List ContentItem
  isError : Option Bool
deriving Repr

/-- The failure envelope built in the catch branch of the call-tool handler:
`{ success: false, error: error.message }` (src/index.js lines 102-106). -/
def failureEnvelope (msg : String) : Json :=
  Json.obj [("success", Json.bool false), ("error", Json.str msg)]

/-- The `CallToolRequestSchema` handler of src/index.js (lines 78-112).
`args` is `request.params.arguments`, possibly absent (`none`), defaulted to
the empty object. An unknown tool name throws (the `throw new Error` on
line 83 sits before the try block, so it is not caught here); a handler
failure is caught and wrapped in a failure envelope with `isError: true`. -/
def callToolRequestHandler (tools : List Tool) (name : String)
    (args : Option Json) : Except String CallToolResponse :=
  match tools.find? (fun t => t.name = name) with
  | none => Except.error ("Unknown tool: " ++ name)
  | some tool =>
    match tool.handler (args.getD (Json.obj [])) with
    | Except.ok result =>
      Except.ok { content := [{ type := "text", text := result }], isError := none }
    | Except.error msg =>
      Except.ok { content := [{ type := "text", text := failureEnvelope msg }],
                  isError := some true }

/-- The projection a `ListToolsRequestSchema` response applies to each
registered tool (src/index.js lines 117-121). -/
def toolInfoOf (t : Tool) : ToolInfo :=
  { name := t.name, description := t.description, inputSchema := t.inputSchema }

/-- The `ListToolsRequestSchema` handler of src/index.js (lines 115-123):
maps every registered tool to its three public fields, in registry order. -/
def listToolsRequestHandler (tools : List Tool) : List ToolInfo :=
  tools.map toolInfoOf

/-! ## The browser session (src/browser.js) -/

/-- The session configuration handed to the SimpleBrowser constructor.
`browser` is the raw string from the CLI/config layer; it may be absent
(`none`), which a JavaScript `switch` treats like any unmatched value. -/
structure Config where
  browser : Option String
  headless : Bool
  viewportWidth : Nat
  viewportHeight : Nat
  timeout : Nat
deriving Repr, DecidableEq

/-- The three Playwright engines imported at the top of src/browser.js. -/
inductive BrowserType where
  | chromium
  | firefox
  | webkit
deriving Repr, DecidableEq

/-- `getBrowserType` (src/browser.js lines 47-56): a switch on
`config.browser` with cases for firefox and webkit and a default of
chromium. Total: no branch throws. -/
def getBrowserType (config : Config) : BrowserType :=
  match config.browser with
  | some "firefox" => BrowserType.firefox
  | some "webkit" => BrowserType.webkit
  | _ => BrowserType.chromium

/-- Calls made into the underlying Playwright engine, with their
arguments. The trace of these events is the session's observable effect on
the engine. -/
inductive Ev where
  | engineLaunch (bt : BrowserType) (headless : Bool)
  | newContext (width height : Nat)
  | newPage
  | setDefaultTimeout (ms : Nat)
  | goto (url : String)
  | goBackCall
  | goForwardCall
  | reloadCall
  | clickCall (selector : String)
  | fillCall (selector value : String)
  | selectOptionCall (selector value : String)
  | textContentCall (selector : String)
  | titleCall
  | waitForSelectorCall (selector : String) (timeout : Nat)
  | evaluateCall (script : String)
  | snapshotEval
  | screenshotCall (path : String)
  | browserClose
deriving Repr, DecidableEq

/-- An interactive DOM element as the snapshot's in-page closure sees it
(src/browser.js lines 146-156): the raw properties read off the element.
`Option` models JavaScript null/undefined for the properties that can be
absent (`textContent`, `value`, `placeholder`, `type`, `getAttribute`). -/
structure RawEl where
  tagName : String
  textContent : Option String
  value : Option String
  placeholder : Option String
  typeAttr : Option String
  roleAttr : Option String
  id : String
  className : String
deriving Repr, DecidableEq

/-- JavaScript truthiness of a possibly-absent string: null/undefined and
the empty string are falsy. -/
def truthy (o : Option String) : Bool :=
  match o with
  | some s => s != ""
  | none => false

/-- JavaScript `a || b` on possibly-absent strings. -/
def jsOr (a b : Option String) : Option String :=
  if truthy a then a else b

/-- The label chain `el.textContent?.trim() || el.value || el.placeholder
|| ''` from the snapshot closure. -/
def bestLabel (e : RawEl) : String :=
  (jsOr (jsOr (e.textContent.map String.trim) e.value) e.placeholder).getD ""

/-- One element of a snapshot (the object literal built by the in-page
closure, src/browser.js lines 148-156). -/
structure SnapEl where
  index : Nat
  tag : String
  text : String
  type : String
  role : String
  id : String
  className : String
deriving Repr, DecidableEq

/-- The mapping step of the snapshot closure: each matched element, paired
with its zero-based DOM-order index, becomes a `SnapEl`. `x || ''` on a
string-or-absent value is `Option.getD ""`; on a plain string (`el.id`,
`el.className`) it is the identity, since the only falsy string is `""`. -/
def extractElements (dom : List RawEl) : List SnapEl :=
  dom.enum.map fun p =>
    { index := p.1
      tag := p.2.tagName.toLower
      text := bestLabel p.2
      type := p.2.typeAttr.getD ""
      role := p.2.roleAttr.getD ""
      id := p.2.id
      className := p.2.className }

/-- The value `snapshot()` resolves to (src/browser.js lines 160-164). -/
structure Snapshot where
  url : String
  title : String
  elements : List SnapEl
deriving Repr, DecidableEq

/-- The external Playwright engine and page, as the session observes them:
the outcome of every engine call (success, or a thrown error's message),
and the content the current page reports. -/
structure Env where
  opResult : Ev → Except String Unit
  pageUrl : String
  pageTitle : String
  pageDom : List RawEl
  pageText : String → Option String
  evalResult : String → Json
  dateNow : Nat

/-- An engine in which every call succeeds. -/
def EnvOk (env : Env) : Prop :=
  ∀ e, env.opResult e = Except.ok ()

/-- The mutable state of a SimpleBrowser instance: the `browser`,
`context` and `page` fields (null modelled as `none`; the handles carry no
data the wrapper inspects beyond null-ness), plus the trace of engine
calls made so far. -/
structure SimpleBrowser where
  config : Config
  browser : Option Unit
  context : Option Unit
  page : Option Unit
  trace : List Ev

/-- The constructor (src/browser.js lines 17-22): stores the config, all
handles null. -/
def SimpleBrowser.init (config : Config) : SimpleBrowser :=
  { config := config, browser := none, context := none, page := none, trace := [] }

/-- Make one call into the engine: record the event and take the outcome
the environment gives it. -/
def callEngine (env : Env) (e : Ev) (s : SimpleBrowser) :
    SimpleBrowser × Except String Unit :=
  ({ s with trace := s.trace ++ [e] }, env.opResult e)

/-- The message wrapper of launch's catch branch (src/browser.js line 43). -/
def launchFailMsg (msg : String) : String :=
  "Failed to launch browser: " ++ msg

namespace SimpleBrowser

/-- `launch()` (src/browser.js lines 24-45). The four engine calls happen
in order; each assignment (`this.browser = ...` etc.) takes effect only
after its call succeeds, and earlier assignments persist when a later call
throws — the catch branch only rewraps the message, it does not reset the
fields. Returns `true` on success, as the source does. -/
def launch (env : Env) (s : SimpleBrowser) : SimpleBrowser × Except String Bool :=
  let bt := getBrowserType s.config
  let (s, r) := callEngine env (Ev.engineLaunch bt s.config.headless) s
  match r with
  | Except.error msg => (s, Except.error (launchFailMsg msg))
  | Except.ok _ =>
  let s := { s with browser := some () }
  let (s, r) := callEngine env (Ev.newContext s.config.viewportWidth s.config.viewportHeight) s
  match r with
  | Except.error msg => (s, Except.error (launchFailMsg msg))
  | Except.ok _ =>
  let s := { s with context := some () }
  let (s, r) := callEngine env Ev.newPage s
  match r with
  | Except.error msg => (s, Except.error (launchFailMsg msg))
  | Except.ok _ =>
  let s := { s with page := some () }
  let (s, r) := callEngine env (Ev.setDefaultTimeout s.config.timeout) s
  match r with
  | Except.error msg => (s, Except.error (launchFailMsg msg))
  | Except.ok _ => (s, Except.ok true)

/-- `ensureLaunched()` (src/browser.js lines 58-62): launch only when the
`browser` field is null. -/
def ensureLaunched (env : Env) (s : SimpleBrowser) : SimpleBrowser × Except String Unit :=
  match s.browser with
  | none =>
    match launch env s with
    | (s, Except.ok _) => (s, Except.ok ())
    | (s, Except.error e) => (s, Except.error e)
  | some _ => (s, Except.ok ())

/-- The shape shared by the one-call primitives: `await
this.ensureLaunched()` then a single engine call. -/
def simpleOp (env : Env) (e : Ev) (s : SimpleBrowser) : SimpleBrowser × Except String Unit :=
  match ensureLaunched env s with
  | (s, Except.error msg) => (s, Except.error msg)
  | (s, Except.ok _) => callEngine env e s

/-- `navigate(url)` (src/browser.js lines 64-67). -/
def navigate (env : Env) (url : String) (s : SimpleBrowser) : SimpleBrowser × Except String Unit :=
  simpleOp env (Ev.goto url) s

/-- `goBack()` (src/browser.js lines 69-72). -/
def goBack (env : Env) (s : SimpleBrowser) : SimpleBrowser × Except String Unit :=
  simpleOp env Ev.goBackCall s

/-- `goForward()` (src/browser.js lines 74-77). -/
def goForward (env : Env) (s : SimpleBrowser) : SimpleBrowser × Except String Unit :=
  simpleOp env Ev.goForwardCall s

/-- `reload()` (src/browser.js lines 79-82). -/
def reload (env : Env) (s : SimpleBrowser) : SimpleBrowser × Except String Unit :=
  simpleOp env Ev.reloadCall s

/-- `click(selector)` (src/browser.js lines 84-87). -/
def click (env : Env) (selector : String) (s : SimpleBrowser) : SimpleBrowser × Except String Unit :=
  simpleOp env (Ev.clickCall selector) s

/-- `type(selector, text)` (src/browser.js lines 89-92): delegates to
`page.fill`. -/
def type (env : Env) (selector text : String) (s : SimpleBrowser) : SimpleBrowser × Except String Unit :=
  simpleOp env (Ev.fillCall selector text) s

/-- `select(selector, value)` (src/browser.js lines 94-97). -/
def select (env : Env) (selector value : String) (s : SimpleBrowser) : SimpleBrowser × Except String Unit :=
  simpleOp env (Ev.selectOptionCall selector value) s

/-- The loop body of `fillForm` (src/browser.js lines 101-103): one
`page.fill` per entry, sequentially, stopping at the first failure. -/
def fillLoop (env : Env) (fields : List (String × String)) (s : SimpleBrowser) :
    SimpleBrowser × Except String Unit :=
  match fields with
  | [] => (s, Except.ok ())
  | (selector, value) :: rest =>
    let (s, r) := callEngine env (Ev.fillCall selector value) s
    match r with
    | Except.error e => (s, Except.error e)
    | Except.ok _ => fillLoop env rest s

/-- `fillForm(fields)` (src/browser.js lines 99-104). `fields` is the
entry list of the JavaScript argument object: insertion order, and — being
object keys — pairwise-distinct selectors. -/
def fillForm (env : Env) (fields : List (String × String)) (s : SimpleBrowser) :
    SimpleBrowser × Except String Unit :=
  match ensureLaunched env s with
  | (s, Except.error msg) => (s, Except.error msg)
  | (s, Except.ok _) => fillLoop env fields s

/-- `getText(selector)` (src/browser.js lines 106-109): `page.textContent`
may resolve to null, hence `Option String`. -/
def getText (env : Env) (selector : String) (s : SimpleBrowser) :
    SimpleBrowser × Except String (Option String) :=
  match ensureLaunched env s with
  | (s, Except.error msg) => (s, Except.error msg)
  | (s, Except.ok _) =>
    let (s, r) := callEngine env (Ev.textContentCall selector) s
    match r with
    | Except.error e => (s, Except.error e)
    | Except.ok _ => (s, Except.ok (env.pageText selector))

/-- `getUrl()` (src/browser.js lines 111-114): `page.url()` is synchronous
and does not reject. -/
def getUrl (env : Env) (s : SimpleBrowser) : SimpleBrowser × Except String String :=
  match ensureLaunched env s with
  | (s, Except.error msg) => (s, Except.error msg)
  | (s, Except.ok _) => (s, Except.ok env.pageUrl)

/-- `getTitle()` (src/browser.js lines 116-119). -/
def getTitle (env : Env) (s : SimpleBrowser) : SimpleBrowser × Except String String :=
  match ensureLaunched env s with
  | (s, Except.error msg) => (s, Except.error msg)
  | (s, Except.ok _) =>
    let (s, r) := callEngine env Ev.titleCall s
    match r with
    | Except.error e => (s, Except.error e)
    | Except.ok _ => (s, Except.ok env.pageTitle)

/-- `waitFor(selector, timeout)` (src/browser.js lines 121-124); the
source defaults `timeout` to 5000 at the parameter list. -/
def waitFor (env : Env) (selector : String) (timeout : Nat) (s : SimpleBrowser) :
    SimpleBrowser × Except String Unit :=
  simpleOp env (Ev.waitForSelectorCall selector timeout) s

/-- `evaluate(script)` (src/browser.js lines 126-129). -/
def evaluate (env : Env) (script : String) (s : SimpleBrowser) :
    SimpleBrowser × Except String Json :=
  match ensureLaunched env s with
  | (s, Except.error msg) => (s, Except.error msg)
  | (s, Except.ok _) =>
    let (s, r) := callEngine env (Ev.evaluateCall script) s
    match r with
    | Except.error e => (s, Except.error e)
    | Except.ok _ => (s, Except.ok (env.evalResult script))

/-- `screenshot(filename)` (src/browser.js lines 131-136): default name
from the clock, returns the path used. -/
def screenshot (env : Env) (filename : Option String) (s : SimpleBrowser) :
    SimpleBrowser × Except String String :=
  match ensureLaunched env s with
  | (s, Except.error msg) => (s, Except.error msg)
  | (s, Except.ok _) =>
    let path := filename.getD ("screenshot-" ++ toString env.dateNow ++ ".png")
    let (s, r) := callEngine env (Ev.screenshotCall path) s
    match r with
    | Except.error e => (s, Except.error e)
    | Except.ok _ => (s, Except.ok path)

/-- `snapshot()` (src/browser.js lines 138-165): url and title via the
session's own getters (each re-runs `ensureLaunched`, a no-op once open),
then the in-page extraction closure, then the relevance filter
`el.text || el.id || el.className`. -/
def snapshot (env : Env) (s : SimpleBrowser) : SimpleBrowser × Except String Snapshot :=
  match ensureLaunched env s with
  | (s, Except.error msg) => (s, Except.error msg)
  | (s, Except.ok _) =>
  match getUrl env s with
  | (s, Except.error e) => (s, Except.error e)
  | (s, Except.ok url) =>
  match getTitle env s with
  | (s, Except.error e) => (s, Except.error e)
  | (s, Except.ok title) =>
  let (s, r) := callEngine env Ev.snapshotEval s
  match r with
  | Except.error e => (s, Except.error e)
  | Except.ok _ =>
    (s, Except.ok { url := url, title := title
                    elements := (extractElements env.pageDom).filter fun el =>
                      el.text != "" || el.id != "" || el.className != "" })

/-- `close()` (src/browser.js lines 167-174): only when the `browser`
field is non-null, close the engine and null all three fields; otherwise
do nothing. -/
def close (env : Env) (s : SimpleBrowser) : SimpleBrowser × Except String Unit :=
  match s.browser with
  | some _ =>
    let (s, r) := callEngine env Ev.browserClose s
    match r with
    | Except.error e => (s, Except.error e)
    | Except.ok _ => ({ s with browser := none, context := none, page := none }, Except.ok ())
  | none => (s, Except.ok ())

end SimpleBrowser

/-- How many times the engine's launch primitive has been called in a
trace. -/
def launchCount (tr : List Ev) : Nat :=
  (tr.filter fun e =>
    match e with
    | Ev.engineLaunch _ _ => true
    | _ => false).length

/-- One step of reading a trace for the value a field holds: a
`page.fill` on the field's selector overwrites the accumulator, anything
else keeps it. -/
def fillStep (selector : String) (acc : Option String) (e : Ev) : Option String :=
  match e with
  | Ev.fillCall s v => if s = selector then some v else acc
  | _ => acc

/-- The value a field holds after a trace, as established by the last
`page.fill` targeting its selector (fields change only through fill in
this model). -/
def lastFill (tr : List Ev) (selector : String) : Option String :=
  tr.foldl (fillStep selector) none

/-- The engine calls a successful launch makes, in order
(src/browser.js lines 24-45). -/
def launchEvents (c : Config) : List Ev :=
  [Ev.engineLaunch (getBrowserType c) c.headless,
   Ev.newContext c.viewportWidth c.viewportHeight,
   Ev.newPage,
   Ev.setDefaultTimeout c.timeout]

/-- The primitive operations of the session, as invocable actions: the
quantification device for claims that range over "any primitive
operation". Each constructor names one public method of SimpleBrowser. -/
inductive PrimOp where
  | navigate (url : String)
  | goBack
  | goForward
  | reload
  | click (selector : String)
  | typeInto (selector text : String)
  | select (selector value : String)
  | fillForm (fields : List (String × String))
  | getText (selector : String)
  | getUrl
  | getTitle
  | waitFor (selector : String) (timeout : Nat)
  | evaluate (script : String)
  | screenshot (filename : Option String)
  | snapshot
deriving Repr, DecidableEq

/-- Run one primitive operation, discarding any returned value (keeping
the state and the success/thrown-error outcome). -/
def runPrim (env : Env) (p : PrimOp) (s : SimpleBrowser) : SimpleBrowser × Except String Unit :=
  match p with
  | PrimOp.navigate url => SimpleBrowser.navigate env url s
  | PrimOp.goBack => SimpleBrowser.goBack env s
  | PrimOp.goForward => SimpleBrowser.goForward env s
  | PrimOp.reload => SimpleBrowser.reload env s
  | PrimOp.click sel => SimpleBrowser.click env sel s
  | PrimOp.typeInto sel text => SimpleBrowser.type env sel text s
  | PrimOp.select sel v => SimpleBrowser.select env sel v s
  | PrimOp.fillForm fields => SimpleBrowser.fillForm env fields s
  | PrimOp.getText sel =>
    let r := SimpleBrowser.getText env sel s
    (r.1, r.2.map fun _ => ())
  | PrimOp.getUrl =>
    let r := SimpleBrowser.getUrl env s
    (r.1, r.2.map fun _ => ())
  | PrimOp.getTitle =>
    let r := SimpleBrowser.getTitle env s
    (r.1, r.2.map fun _ => ())
  | PrimOp.waitFor sel t => SimpleBrowser.waitFor env sel t s
  | PrimOp.evaluate script =>
    let r := SimpleBrowser.evaluate env script s
    (r.1, r.2.map fun _ => ())
  | PrimOp.screenshot f =>
    let r := SimpleBrowser.screenshot env f s
    (r.1, r.2.map fun _ => ())
  | PrimOp.snapshot =>
    let r := SimpleBrowser.snapshot env s
    (r.1, r.2.map fun _ => ())

/-- Run a sequence of primitive operations, keeping states. -/
def runPrims (env : Env) (ps : List PrimOp) (s : SimpleBrowser) : SimpleBrowser :=
  ps.foldl (fun s p => (runPrim env p s).1) s

/-! ## The tool catalog (src/tools.js)

The public data of every descriptor `createTools` registers: name,
description, and input schema, verbatim from the source, in registration
order. -/

/-- The 18 tool descriptors of src/tools.js, public fields only. -/
def toolCatalog : List ToolInfo :=
  [{ name := "navigate", description := "Navigate to a URL",
     inputSchema :=
       { properties := [("url", { type := "string", description := "The URL to navigate to" })],
         required := ["url"] } },
   { name := "go_back", description := "Go back to the previous page",
     inputSchema := { properties := [], required := [] } },
   { name := "go_forward", description := "Go forward to the next page",
     inputSchema := { properties := [], required := [] } },
   { name := "reload", description := "Reload the current page",
     inputSchema := { properties := [], required := [] } },
   { name := "click", description := "Click an element on the page",
     inputSchema :=
       { properties := [("selector",
           { type := "string", description := "CSS selector for the element to click" })],
         required := ["selector"] } },
   { name := "type", description := "Type text into an input field",
     inputSchema :=
       { properties := [("selector",
           { type := "string", description := "CSS selector for the input field" }),
           ("text", { type := "string", description := "Text to type" })],
         required := ["selector", "text"] } },
   { name := "select", description := "Select an option from a dropdown",
     inputSchema :=
       { properties := [("selector",
           { type := "string", description := "CSS selector for the select element" }),
           ("value", { type := "string", description := "Value to select" })],
         required := ["selector", "value"] } },
   { name := "fill_form", description := "Fill multiple form fields at once",
     inputSchema :=
       { properties := [("fields",
           { type := "object",
             description := "Object with selector as key and value as text to fill" })],
         required := ["fields"] } },
   { name := "snapshot",
     description := "Get a snapshot of the current page with interactive elements",
     inputSchema := { properties := [], required := [] } },
   { name := "screenshot", description := "Take a screenshot of the current page",
     inputSchema :=
       { properties := [("filename",
           { type := "string", description := "Optional filename for the screenshot" })],
         required := [] } },
   { name := "get_text", description := "Get text content from an element",
     inputSchema :=
       { properties := [("selector",
           { type := "string", description := "CSS selector for the element" })],
         required := ["selector"] } },
   { name := "get_url", description := "Get the current page URL",
     inputSchema := { properties := [], required := [] } },
   { name := "get_title", description := "Get the current page title",
     inputSchema := { properties := [], required := [] } },
   { name := "wait_for", description := "Wait for an element to appear on the page",
     inputSchema :=
       { properties := [("selector",
           { type := "string", description := "CSS selector for the element to wait for" }),
           ("timeout",
           { type := "number", description := "Timeout in milliseconds (default: 5000)" })],
         required := ["selector"] } },
   { name := "evaluate", description := "Run JavaScript code on the page",
     inputSchema :=
       { properties := [("script",
           { type := "string", description := "JavaScript code to execute" })],
         required := ["script"] } },
   { name := "close", description := "Close the browser",
     inputSchema := { properties := [], required := [] } },
   { name := "show_available_templates",
     description := "Show available Zypin templates and let user choose",
     inputSchema :=
       { properties := [("projectName",
           { type := "string", description := "Test project name" })],
         required := ["projectName"] } },
   { name := "create_test_project", description := "Create test project with selected template",
     inputSchema :=
       { properties := [("projectName",
           { type := "string", description := "Test project name" }),
           ("template",
           { type := "string", description := "Selected template (e.g., selenium/basic-webdriver)" }),
           ("workingDirectory",
           { type := "string", description := "Current directory path (from pwd command)" })],
         required := ["projectName", "template", "workingDirectory"] } }]

/-- A registry carrying the catalog's public data. The dispatcher's
unknown-name and listing paths never invoke a handler, so for exercising
those paths any handler body serves; this one returns null. -/
def catalogTools : List Tool :=
  toolCatalog.map fun i =>
    { name := i.name, description := i.description, inputSchema := i.inputSchema,
      handler := fun _ => Except.ok Json.null }

/-- A registered tool whose handler throws `Error("boom")` — the navigate
descriptor in a run where `browser.navigate` rejects with message "boom"
(handlers do not catch, src/tools.js lines 27-30). -/
def boomTool : Tool :=
  { name := "navigate", description := "Navigate to a URL",
    inputSchema :=
      { properties := [("url", { type := "string", description := "The URL to navigate to" })],
        required := ["url"] },
    handler := fun _ => Except.error "boom" }

/-! ## Concrete fixtures for witnesses and counterexamples -/

/-- A concrete session configuration (the defaults of src/index.js). -/
def config0 : Config :=
  { browser := some "chromium", headless := true,
    viewportWidth := 1280, viewportHeight := 720, timeout := 30000 }

/-- A healthy engine: every call succeeds; the page is example.com with an
empty DOM. -/
def env0 : Env :=
  { opResult := fun _ => Except.ok ()
    pageUrl := "https://example.com/"
    pageTitle := "Example Domain"
    pageDom := []
    pageText := fun _ => none
    evalResult := fun _ => Json.null
    dateNow := 0 }

/-- An engine whose launch succeeds but whose context creation throws
"ctx boom"; everything else succeeds. -/
def envCtxFail : Env :=
  { opResult := fun e =>
      match e with
      | Ev.newContext _ _ => Except.error "ctx boom"
      | _ => Except.ok ()
    pageUrl := "https://example.com/"
    pageTitle := "Example Domain"
    pageDom := []
    pageText := fun _ => none
    evalResult := fun _ => Json.null
    dateNow := 0 }

/-- A page with one labelled button and one decorative spacer div matched
via its onclick attribute: the button passes the relevance filter, the
spacer (no text, id, or class) does not. -/
def buttonDom : List RawEl :=
  [{ tagName := "BUTTON", textContent := some "Test Button", value := none,
     placeholder := none, typeAttr := some "submit", roleAttr := none,
     id := "test-button", className := "btn" },
   { tagName := "DIV", textContent := some "  ", value := none,
     placeholder := none, typeAttr := none, roleAttr := none,
     id := "", className := "" }]

/-- A healthy engine over the one-button page. -/
def envButton : Env :=
  { opResult := fun _ => Except.ok ()
    pageUrl := "https://example.com/form"
    pageTitle := "Form"
    pageDom := buttonDom
    pageText := fun _ => some "Test Button"
    evalResult := fun _ => Json.null
    dateNow := 0 }

/-- A concrete open session: the state reached from `init config0` by one
successful launch. -/
def openState0 : SimpleBrowser :=
  { config := config0, browser := some (), context := some (), page := some (),
    trace := launchEvents config0 }

/-! ## Theorems -/

/-- C1 (counterexample): `callTool("nonexistent", {})` against the actual
18-tool registry does not produce a failure envelope — the dispatcher
throws. The `throw new Error` on src/index.js line 83 sits before the try
block, so the error propagates past the dispatcher boundary to the
transport layer instead of being converted into an Envelope. -/
theorem c1_counterexample :
    callToolRequestHandler catalogTools "nonexistent" (some (Json.obj []))
      = Except.error ("Unknown tool: " ++ "nonexistent") := by
  rfl

/-- C1 (amended): for every tool name matching no registered tool, the
dispatcher throws an Error whose message is `"Unknown tool: "` followed by
the requested name (so the error text contains the name) — the failure is
a thrown error escaping the dispatcher, not a failure envelope. -/
theorem c1_unknown_tool_throws (tools : List Tool) (name : String) (args : Option Json)
    (h : ∀ t ∈ tools, t.name ≠ name) :
    callToolRequestHandler tools name args = Except.error ("Unknown tool: " ++ name) := by
  have hf : tools.find? (fun t => t.name = name) = none := by
    rw [List.find?_eq_none]
    intro t ht
    simpa using h t ht
  simp [callToolRequestHandler, hf]

/-- C1 (witness): the amended statement at the actual registry and the
name "nonexistent". -/
theorem c1_unknown_tool_throws_witness :
    (∀ t ∈ catalogTools, t.name ≠ "nonexistent")
    ∧ callToolRequestHandler catalogTools "nonexistent" none
        = Except.error ("Unknown tool: " ++ "nonexistent") := by
  have hb : catalogTools.all (fun t => t.name != "nonexistent") = true := by rfl
  have h : ∀ t ∈ catalogTools, t.name ≠ "nonexistent" := by
    intro t ht
    simpa using List.all_eq_true.mp hb t ht
  exact ⟨h, c1_unknown_tool_throws catalogTools "nonexistent" none h⟩

/-- C3: when lookup succeeds and the tool's handler throws an error with
message `m`, the dispatcher returns (does not re-throw: the result is an
ok response, not a propagating error) a response whose single content item
is the failure envelope `{success: false, error: m}` and whose
transport-level `isError` indicator is set. -/
theorem c3_handler_failure_envelope (tools : List Tool) (name : String)
    (args : Option Json) (tool : Tool) (m : String)
    (hfind : tools.find? (fun t => t.name = name) = some tool)
    (hthrow : tool.handler (args.getD (Json.obj [])) = Except.error m) :
    callToolRequestHandler tools name args
      = Except.ok { content := [{ type := "text", text := failureEnvelope m }],
                    isError := some true } := by
  simp [callToolRequestHandler, hfind, hthrow]

/-- C3 (witness): a registry whose navigate handler throws
`Error("boom")`: the dispatcher yields the `{success:false, error:"boom"}`
envelope with `isError` set. -/
theorem c3_handler_failure_envelope_witness :
    [boomTool].find? (fun t => t.name = "navigate") = some boomTool
    ∧ boomTool.handler ((none : Option Json).getD (Json.obj [])) = Except.error "boom"
    ∧ callToolRequestHandler [boomTool] "navigate" none
        = Except.ok { content := [{ type := "text", text := failureEnvelope "boom" }],
                      isError := some true } :=
  ⟨by rfl, by rfl,
   c3_handler_failure_envelope [boomTool] "navigate" none boomTool "boom" (by rfl) (by rfl)⟩

/-- C4: the tool-listing response has one entry per registered tool, in
registration order, and the i-th entry consists of exactly the i-th tool's
name, description and inputSchema (a `ToolInfo` has no handler field, so
no handler is ever exposed). The handler is a pure function of the
registry, which the source never mutates, so repeated calls within one
process lifetime return identical sequences. -/
theorem c4_list_tools (tools : List Tool) (i : Nat) (h : i < tools.length) :
    (listToolsRequestHandler tools).length = tools.length
    ∧ (listToolsRequestHandler tools).get
        ⟨i, by simpa [listToolsRequestHandler] using h⟩
      = { name := (tools.get ⟨i, h⟩).name
          description := (tools.get ⟨i, h⟩).description
          inputSchema := (tools.get ⟨i, h⟩).inputSchema } := by
  constructor
  · simp [listToolsRequestHandler]
  · simp [listToolsRequestHandler, toolInfoOf]

/-- C4 (witness): the listing property at index 0 of the actual
18-tool registry. -/
theorem c4_list_tools_witness :
    0 < catalogTools.length
    ∧ ((listToolsRequestHandler catalogTools).length = catalogTools.length
       ∧ (listToolsRequestHandler catalogTools).get
           ⟨0, by simpa [listToolsRequestHandler] using (by decide : 0 < catalogTools.length)⟩
         = { name := (catalogTools.get ⟨0, by decide⟩).name
             description := (catalogTools.get ⟨0, by decide⟩).description
             inputSchema := (catalogTools.get ⟨0, by decide⟩).inputSchema }) :=
  ⟨by decide, c4_list_tools catalogTools 0 (by decide)⟩

/-- C10: for every configuration whose browser string is anything other
than "firefox" or "webkit" — an unrecognized string or an absent value —
`getBrowserType` returns the chromium engine. The function is a total
switch with a default branch, so it never fails. -/
theorem c10_getBrowserType_fallback (config : Config)
    (h1 : config.browser ≠ some "firefox") (h2 : config.browser ≠ some "webkit") :
    getBrowserType config = BrowserType.chromium := by
  unfold getBrowserType
  split
  · next heq => exact absurd heq h1
  · next heq => exact absurd heq h2
  · rfl

/-- C10 (witness): the fallback at the concrete value `some "chromium"`,
which matches neither special case. -/
theorem c10_getBrowserType_fallback_witness :
    (config0.browser ≠ some "firefox" ∧ config0.browser ≠ some "webkit")
    ∧ getBrowserType config0 = BrowserType.chromium :=
  ⟨⟨by decide, by decide⟩,
   c10_getBrowserType_fallback config0 (by decide) (by decide)⟩

/-! ### Session lemmas under a healthy engine -/

theorem launch_ok (env : Env) (s : SimpleBrowser) (hok : EnvOk env) :
    SimpleBrowser.launch env s
      = ({ s with browser := some (), context := some (), page := some (),
                  trace := s.trace ++ launchEvents s.config }, Except.ok true) := by
  have hok' : ∀ e, env.opResult e = Except.ok () := hok
  simp [SimpleBrowser.launch, callEngine, hok', launchEvents]

theorem ensureLaunched_of_open (env : Env) (s : SimpleBrowser) (hb : s.browser = some ()) :
    SimpleBrowser.ensureLaunched env s = (s, Except.ok ()) := by
  simp [SimpleBrowser.ensureLaunched, hb]

theorem ensureLaunched_of_unopened (env : Env) (s : SimpleBrowser) (hok : EnvOk env)
    (hb : s.browser = none) :
    SimpleBrowser.ensureLaunched env s
      = ({ s with browser := some (), context := some (), page := some (),
                  trace := s.trace ++ launchEvents s.config }, Except.ok ()) := by
  simp [SimpleBrowser.ensureLaunched, hb, launch_ok env s hok]

theorem ensureLaunched_spec (env : Env) (s : SimpleBrowser) (hok : EnvOk env) :
    (SimpleBrowser.ensureLaunched env s).2 = Except.ok ()
    ∧ (SimpleBrowser.ensureLaunched env s).1.browser = some ()
    ∧ (SimpleBrowser.ensureLaunched env s).1.config = s.config
    ∧ (SimpleBrowser.ensureLaunched env s).1.trace
        = s.trace ++ (if s.browser = none then launchEvents s.config else []) := by
  cases hb : s.browser with
  | none => simp [ensureLaunched_of_unopened env s hok hb, hb]
  | some u =>
    cases u
    simp [ensureLaunched_of_open env s hb, hb]

theorem launchCount_append (t1 t2 : List Ev) :
    launchCount (t1 ++ t2) = launchCount t1 + launchCount t2 := by
  simp [launchCount, List.filter_append]

theorem launchCount_launchEvents (c : Config) : launchCount (launchEvents c) = 1 := by
  rfl

theorem launchCount_shape (s : SimpleBrowser) (extra : List Ev)
    (hextra : launchCount extra = 0) :
    launchCount (s.trace ++ ((if s.browser = none then launchEvents s.config else []) ++ extra))
      = launchCount s.trace + (if s.browser = none then 1 else 0) := by
  rcases hb : s.browser with _ | u <;>
    simp [hb, launchCount_append, hextra, launchCount_launchEvents]

theorem simpleOp_spec (env : Env) (e : Ev) (s : SimpleBrowser) (hok : EnvOk env) :
    (SimpleBrowser.simpleOp env e s).2 = Except.ok ()
    ∧ (SimpleBrowser.simpleOp env e s).1.browser = some ()
    ∧ (SimpleBrowser.simpleOp env e s).1.config = s.config
    ∧ (SimpleBrowser.simpleOp env e s).1.trace
        = s.trace ++ ((if s.browser = none then launchEvents s.config else []) ++ [e]) := by
  cases hb : s.browser with
  | none =>
    simp [SimpleBrowser.simpleOp, ensureLaunched_of_unopened env s hok hb, callEngine,
      hok e, hb]
  | some u =>
    cases u
    simp [SimpleBrowser.simpleOp, ensureLaunched_of_open env s hb, callEngine, hok e, hb]

theorem getUrl_ok (env : Env) (s : SimpleBrowser) (hok : EnvOk env) :
    SimpleBrowser.getUrl env s
      = ((SimpleBrowser.ensureLaunched env s).1, Except.ok env.pageUrl) := by
  obtain ⟨h1, -, -, -⟩ := ensureLaunched_spec env s hok
  rcases hE : SimpleBrowser.ensureLaunched env s with ⟨s₁, r⟩
  rw [hE] at h1
  have hr : r = Except.ok () := h1
  subst hr
  simp [SimpleBrowser.getUrl, hE]

theorem getTitle_ok (env : Env) (s : SimpleBrowser) (hok : EnvOk env) :
    SimpleBrowser.getTitle env s
      = ({ (SimpleBrowser.ensureLaunched env s).1 with
             trace := (SimpleBrowser.ensureLaunched env s).1.trace ++ [Ev.titleCall] },
         Except.ok env.pageTitle) := by
  obtain ⟨h1, -, -, -⟩ := ensureLaunched_spec env s hok
  rcases hE : SimpleBrowser.ensureLaunched env s with ⟨s₁, r⟩
  rw [hE] at h1
  have hr : r = Except.ok () := h1
  subst hr
  simp [SimpleBrowser.getTitle, hE, callEngine, hok Ev.titleCall]

theorem getText_ok (env : Env) (selector : String) (s : SimpleBrowser) (hok : EnvOk env) :
    SimpleBrowser.getText env selector s
      = ({ (SimpleBrowser.ensureLaunched env s).1 with
             trace := (SimpleBrowser.ensureLaunched env s).1.trace
               ++ [Ev.textContentCall selector] },
         Except.ok (env.pageText selector)) := by
  obtain ⟨h1, -, -, -⟩ := ensureLaunched_spec env s hok
  rcases hE : SimpleBrowser.ensureLaunched env s with ⟨s₁, r⟩
  rw [hE] at h1
  have hr : r = Except.ok () := h1
  subst hr
  simp [SimpleBrowser.getText, hE, callEngine, hok (Ev.textContentCall selector)]

theorem evaluate_ok (env : Env) (script : String) (s : SimpleBrowser) (hok : EnvOk env) :
    SimpleBrowser.evaluate env script s
      = ({ (SimpleBrowser.ensureLaunched env s).1 with
             trace := (SimpleBrowser.ensureLaunched env s).1.trace
               ++ [Ev.evaluateCall script] },
         Except.ok (env.evalResult script)) := by
  obtain ⟨h1, -, -, -⟩ := ensureLaunched_spec env s hok
  rcases hE : SimpleBrowser.ensureLaunched env s with ⟨s₁, r⟩
  rw [hE] at h1
  have hr : r = Except.ok () := h1
  subst hr
  simp [SimpleBrowser.evaluate, hE, callEngine, hok (Ev.evaluateCall script)]

theorem screenshot_ok (env : Env) (filename : Option String) (s : SimpleBrowser)
    (hok : EnvOk env) :
    SimpleBrowser.screenshot env filename s
      = ({ (SimpleBrowser.ensureLaunched env s).1 with
             trace := (SimpleBrowser.ensureLaunched env s).1.trace
               ++ [Ev.screenshotCall
                     (filename.getD ("screenshot-" ++ toString env.dateNow ++ ".png"))] },
         Except.ok (filename.getD ("screenshot-" ++ toString env.dateNow ++ ".png"))) := by
  obtain ⟨h1, -, -, -⟩ := ensureLaunched_spec env s hok
  rcases hE : SimpleBrowser.ensureLaunched env s with ⟨s₁, r⟩
  rw [hE] at h1
  have hr : r = Except.ok () := h1
  subst hr
  simp [SimpleBrowser.screenshot, hE, callEngine,
    hok (Ev.screenshotCall (filename.getD ("screenshot-" ++ toString env.dateNow ++ ".png")))]

theorem snapshot_ok (env : Env) (s : SimpleBrowser) (hok : EnvOk env) :
    SimpleBrowser.snapshot env s
      = ({ (SimpleBrowser.ensureLaunched env s).1 with
             trace := (SimpleBrowser.ensureLaunched env s).1.trace
               ++ [Ev.titleCall, Ev.snapshotEval] },
         Except.ok { url := env.pageUrl, title := env.pageTitle,
                     elements := (extractElements env.pageDom).filter fun el =>
                       el.text != "" || el.id != "" || el.className != "" }) := by
  obtain ⟨h1, h2, -, -⟩ := ensureLaunched_spec env s hok
  rcases hE : SimpleBrowser.ensureLaunched env s with ⟨s₁, r⟩
  rw [hE] at h1 h2
  have hr : r = Except.ok () := h1
  subst hr
  have hb₁ : s₁.browser = some () := h2
  have hu : SimpleBrowser.getUrl env s₁ = (s₁, Except.ok env.pageUrl) := by
    rw [getUrl_ok env s₁ hok, ensureLaunched_of_open env s₁ hb₁]
  have ht : SimpleBrowser.getTitle env s₁
      = ({ s₁ with trace := s₁.trace ++ [Ev.titleCall] }, Except.ok env.pageTitle) := by
    simp [SimpleBrowser.getTitle, ensureLaunched_of_open env s₁ hb₁, callEngine,
      hok Ev.titleCall]
  simp [SimpleBrowser.snapshot, hE, hu, ht, callEngine, hok Ev.snapshotEval]

theorem fillLoop_spec (env : Env) (hok : EnvOk env) (fields : List (String × String)) :
    ∀ s : SimpleBrowser,
      (SimpleBrowser.fillLoop env fields s).2 = Except.ok ()
      ∧ (SimpleBrowser.fillLoop env fields s).1.browser = s.browser
      ∧ (SimpleBrowser.fillLoop env fields s).1.config = s.config
      ∧ (SimpleBrowser.fillLoop env fields s).1.trace
          = s.trace ++ fields.map (fun f => Ev.fillCall f.1 f.2) := by
  induction fields with
  | nil => intro s; simp [SimpleBrowser.fillLoop]
  | cons f rest ih =>
    intro s
    obtain ⟨f1, f2⟩ := f
    obtain ⟨i1, i2, i3, i4⟩ := ih { s with trace := s.trace ++ [Ev.fillCall f1 f2] }
    simp [SimpleBrowser.fillLoop, callEngine, hok (Ev.fillCall f1 f2)]
    exact ⟨i1, by simp [i2], by simp [i3], by simp [i4]⟩

theorem fillForm_ok (env : Env) (fields : List (String × String)) (s : SimpleBrowser)
    (hok : EnvOk env) :
    (SimpleBrowser.fillForm env fields s).2 = Except.ok ()
    ∧ (SimpleBrowser.fillForm env fields s).1.browser = some ()
    ∧ (SimpleBrowser.fillForm env fields s).1.config = s.config
    ∧ (SimpleBrowser.fillForm env fields s).1.trace
        = s.trace ++ ((if s.browser = none then launchEvents s.config else [])
            ++ fields.map (fun f => Ev.fillCall f.1 f.2)) := by
  obtain ⟨h1, h2, h3, h4⟩ := ensureLaunched_spec env s hok
  rcases hE : SimpleBrowser.ensureLaunched env s with ⟨s₁, r⟩
  rw [hE] at h1 h2 h3 h4
  have hr : r = Except.ok () := h1
  subst hr
  obtain ⟨l1, l2, l3, l4⟩ := fillLoop_spec env hok fields s₁
  have hb₁ : s₁.browser = some () := h2
  have hc₁ : s₁.config = s.config := h3
  have ht₁ : s₁.trace
      = s.trace ++ (if s.browser = none then launchEvents s.config else []) := h4
  refine ⟨?_, ?_, ?_, ?_⟩ <;>
    simp [SimpleBrowser.fillForm, hE, l1, l2, l3, l4, hb₁, hc₁, ht₁]

theorem launchCount_fills (fields : List (String × String)) :
    launchCount (fields.map fun f => Ev.fillCall f.1 f.2) = 0 := by
  induction fields with
  | nil => rfl
  | cons f rest ih => simpa [launchCount, List.filter_cons] using ih

theorem prim_shape_count (s : SimpleBrowser) (tr extra : List Ev)
    (h : tr = s.trace ++ ((if s.browser = none then launchEvents s.config else []) ++ extra))
    (hextra : launchCount extra = 0) :
    launchCount tr = launchCount s.trace + (if s.browser = none then 1 else 0) := by
  rw [h]
  exact launchCount_shape s extra hextra

theorem count_after (env : Env) (s : SimpleBrowser) (hok : EnvOk env) (extra : List Ev)
    (hextra : launchCount extra = 0) :
    launchCount ((SimpleBrowser.ensureLaunched env s).1.trace ++ extra)
      = launchCount s.trace + (if s.browser = none then 1 else 0) := by
  obtain ⟨-, -, -, e4⟩ := ensureLaunched_spec env s hok
  rw [e4, List.append_assoc]
  exact launchCount_shape s extra hextra

theorem count_after0 (env : Env) (s : SimpleBrowser) (hok : EnvOk env) :
    launchCount (SimpleBrowser.ensureLaunched env s).1.trace
      = launchCount s.trace + (if s.browser = none then 1 else 0) := by
  obtain ⟨-, -, -, e4⟩ := ensureLaunched_spec env s hok
  rw [e4]
  rcases hb : s.browser with _ | u <;>
    simp [hb, launchCount_append, launchCount_launchEvents]

theorem runPrim_spec (env : Env) (p : PrimOp) (s : SimpleBrowser) (hok : EnvOk env) :
    (runPrim env p s).2 = Except.ok ()
    ∧ (runPrim env p s).1.browser = some ()
    ∧ (runPrim env p s).1.config = s.config
    ∧ launchCount (runPrim env p s).1.trace
        = launchCount s.trace + (if s.browser = none then 1 else 0) := by
  cases p with
  | navigate url =>
    have h := simpleOp_spec env (Ev.goto url) s hok
    exact ⟨h.1, h.2.1, h.2.2.1, prim_shape_count s _ _ h.2.2.2 rfl⟩
  | goBack =>
    have h := simpleOp_spec env Ev.goBackCall s hok
    exact ⟨h.1, h.2.1, h.2.2.1, prim_shape_count s _ _ h.2.2.2 rfl⟩
  | goForward =>
    have h := simpleOp_spec env Ev.goForwardCall s hok
    exact ⟨h.1, h.2.1, h.2.2.1, prim_shape_count s _ _ h.2.2.2 rfl⟩
  | reload =>
    have h := simpleOp_spec env Ev.reloadCall s hok
    exact ⟨h.1, h.2.1, h.2.2.1, prim_shape_count s _ _ h.2.2.2 rfl⟩
  | click sel =>
    have h := simpleOp_spec env (Ev.clickCall sel) s hok
    exact ⟨h.1, h.2.1, h.2.2.1, prim_shape_count s _ _ h.2.2.2 rfl⟩
  | typeInto sel text =>
    have h := simpleOp_spec env (Ev.fillCall sel text) s hok
    exact ⟨h.1, h.2.1, h.2.2.1, prim_shape_count s _ _ h.2.2.2 rfl⟩
  | select sel v =>
    have h := simpleOp_spec env (Ev.selectOptionCall sel v) s hok
    exact ⟨h.1, h.2.1, h.2.2.1, prim_shape_count s _ _ h.2.2.2 rfl⟩
  | waitFor sel t =>
    have h := simpleOp_spec env (Ev.waitForSelectorCall sel t) s hok
    exact ⟨h.1, h.2.1, h.2.2.1, prim_shape_count s _ _ h.2.2.2 rfl⟩
  | fillForm fields =>
    have h := fillForm_ok env fields s hok
    exact ⟨h.1, h.2.1, h.2.2.1, prim_shape_count s _ _ h.2.2.2 (launchCount_fills fields)⟩
  | getText sel =>
    obtain ⟨-, e2, e3, -⟩ := ensureLaunched_spec env s hok
    have hg := getText_ok env sel s hok
    simp only [runPrim, hg]
    exact ⟨rfl, e2, e3, count_after env s hok [Ev.textContentCall sel] rfl⟩
  | getUrl =>
    obtain ⟨-, e2, e3, -⟩ := ensureLaunched_spec env s hok
    have hg := getUrl_ok env s hok
    simp only [runPrim, hg]
    exact ⟨rfl, e2, e3, count_after0 env s hok⟩
  | getTitle =>
    obtain ⟨-, e2, e3, -⟩ := ensureLaunched_spec env s hok
    have hg := getTitle_ok env s hok
    simp only [runPrim, hg]
    exact ⟨rfl, e2, e3, count_after env s hok [Ev.titleCall] rfl⟩
  | evaluate script =>
    obtain ⟨-, e2, e3, -⟩ := ensureLaunched_spec env s hok
    have hg := evaluate_ok env script s hok
    simp only [runPrim, hg]
    exact ⟨rfl, e2, e3, count_after env s hok [Ev.evaluateCall script] rfl⟩
  | screenshot f =>
    obtain ⟨-, e2, e3, -⟩ := ensureLaunched_spec env s hok
    have hg := screenshot_ok env f s hok
    simp only [runPrim, hg]
    exact ⟨rfl, e2, e3,
      count_after env s hok
        [Ev.screenshotCall (f.getD ("screenshot-" ++ toString env.dateNow ++ ".png"))] rfl⟩
  | snapshot =>
    obtain ⟨-, e2, e3, -⟩ := ensureLaunched_spec env s hok
    have hg := snapshot_ok env s hok
    simp only [runPrim, hg]
    exact ⟨rfl, e2, e3, count_after env s hok [Ev.titleCall, Ev.snapshotEval] rfl⟩

theorem runPrims_open (env : Env) (ps : List PrimOp) (hok : EnvOk env) :
    ∀ s : SimpleBrowser, s.browser = some () →
      (runPrims env ps s).browser = some ()
      ∧ launchCount (runPrims env ps s).trace = launchCount s.trace := by
  induction ps with
  | nil => intro s hb; exact ⟨hb, rfl⟩
  | cons p ps ih =>
    intro s hb
    obtain ⟨-, h2, -, h4⟩ := runPrim_spec env p s hok
    obtain ⟨j1, j2⟩ := ih (runPrim env p s).1 h2
    refine ⟨j1, ?_⟩
    rw [show runPrims env (p :: ps) s = runPrims env ps (runPrim env p s).1 from rfl] at *
    rw [j2, h4, hb]
    simp

theorem close_spec (env : Env) (s : SimpleBrowser) (hok : EnvOk env) :
    (SimpleBrowser.close env s).2 = Except.ok ()
    ∧ (SimpleBrowser.close env s).1.browser = none
    ∧ (s.browser = some () →
        (SimpleBrowser.close env s).1
          = { s with browser := none, context := none, page := none,
                     trace := s.trace ++ [Ev.browserClose] })
    ∧ (s.browser = none → (SimpleBrowser.close env s).1 = s) := by
  cases hb : s.browser with
  | none => simp [SimpleBrowser.close, hb]
  | some u =>
    cases u
    simp [SimpleBrowser.close, hb, callEngine, hok Ev.browserClose]

theorem foldl_no_fill (fields : List (String × String)) (k : String) (a : Option String)
    (hk : k ∉ fields.map Prod.fst) :
    (fields.map fun f => Ev.fillCall f.1 f.2).foldl (fillStep k) a = a := by
  induction fields generalizing a with
  | nil => rfl
  | cons f rest ih =>
    obtain ⟨k0, v0⟩ := f
    have hne : k0 ≠ k := by
      intro h
      exact hk (by simp [h])
    have hk' : k ∉ rest.map Prod.fst := by
      intro h
      exact hk (by simp [h])
    simp only [List.map_cons, List.foldl_cons]
    rw [show fillStep k a (Ev.fillCall k0 v0) = a from by simp [fillStep, hne]]
    exact ih a hk'

theorem foldl_fills (fields : List (String × String)) (k v : String) :
    ∀ a : Option String, (k, v) ∈ fields → (fields.map Prod.fst).Nodup →
      (fields.map fun f => Ev.fillCall f.1 f.2).foldl (fillStep k) a = some v := by
  induction fields with
  | nil =>
    intro a hmem _
    cases hmem
  | cons f rest ih =>
    intro a hmem hnd
    obtain ⟨k0, v0⟩ := f
    rw [List.map_cons, List.nodup_cons] at hnd
    simp only [List.map_cons, List.foldl_cons]
    rcases List.mem_cons.mp hmem with heq | hrest
    · obtain ⟨hk, hv⟩ := Prod.mk.injEq .. ▸ heq
      subst hk; subst hv
      rw [show fillStep k a (Ev.fillCall k v) = some v from by simp [fillStep]]
      exact foldl_no_fill rest k (some v) hnd.1
    · have hne : k0 ≠ k := by
        intro h
        subst h
        exact hnd.1 (by simpa using List.mem_map_of_mem Prod.fst hrest)
      rw [show fillStep k a (Ev.fillCall k0 v0) = a from by simp [fillStep, hne]]
      exact ih a hrest hnd.2

/-- C2 (counterexample): navigate (which opens the session), then close,
then navigate again — the second navigate does not fail with any
ResourceClosed error: it succeeds, and the trace shows a second engine
launch sequence. Closed is not terminal in src/browser.js: `close()` only
nulls `this.browser`, and `ensureLaunched()` relaunches whenever
`this.browser` is null. -/
theorem c2_counterexample :
    (SimpleBrowser.navigate env0 "https://example.com"
        (SimpleBrowser.close env0
          (SimpleBrowser.navigate env0 "https://example.com"
            (SimpleBrowser.init config0)).1).1).2 = Except.ok ()
    ∧ launchCount
        (SimpleBrowser.navigate env0 "https://example.com"
          (SimpleBrowser.close env0
            (SimpleBrowser.navigate env0 "https://example.com"
              (SimpleBrowser.init config0)).1).1).1.trace = 2 :=
  ⟨rfl, rfl⟩

/-- C2 (amended): after `close()` the session's browser handle is null —
the same observable state as Unopened — so a subsequent primitive
operation does not fail with ResourceClosed: it triggers a fresh launch
sequence (exactly one more engine launch) and succeeds. The session is
reopened within the same instance. -/
theorem c2_close_not_terminal (env : Env) (s : SimpleBrowser) (p : PrimOp)
    (hok : EnvOk env) :
    (SimpleBrowser.close env s).2 = Except.ok ()
    ∧ (SimpleBrowser.close env s).1.browser = none
    ∧ (runPrim env p (SimpleBrowser.close env s).1).2 = Except.ok ()
    ∧ launchCount (runPrim env p (SimpleBrowser.close env s).1).1.trace
        = launchCount (SimpleBrowser.close env s).1.trace + 1 := by
  obtain ⟨c1, c2, -, -⟩ := close_spec env s hok
  obtain ⟨r1, -, -, r4⟩ := runPrim_spec env p (SimpleBrowser.close env s).1 hok
  refine ⟨c1, c2, r1, ?_⟩
  rw [r4, c2]
  simp

/-- C2 (witness): the amended statement at a healthy engine, a concrete
open session, and a click as the subsequent primitive. -/
theorem c2_close_not_terminal_witness :
    EnvOk env0
    ∧ ((SimpleBrowser.close env0 openState0).2 = Except.ok ()
       ∧ (SimpleBrowser.close env0 openState0).1.browser = none
       ∧ (runPrim env0 (PrimOp.click "#btn") (SimpleBrowser.close env0 openState0).1).2
           = Except.ok ()
       ∧ launchCount
           (runPrim env0 (PrimOp.click "#btn") (SimpleBrowser.close env0 openState0).1).1.trace
         = launchCount (SimpleBrowser.close env0 openState0).1.trace + 1) :=
  ⟨fun _ => rfl, c2_close_not_terminal env0 openState0 (PrimOp.click "#btn") (fun _ => rfl)⟩

/-- C5: `close()` is idempotent. From any session state whose handles
satisfy the reachable-state invariant (a null browser implies null
context and page — true of every state the program can produce), the
first close succeeds and leaves all three handles null, the second close
succeeds and changes nothing (it makes no engine call), engine resources
are released (one `browser.close()` call) exactly when the state was
Open, and a close from a non-open state is a complete no-op. -/
theorem c5_close_idempotent (env : Env) (s : SimpleBrowser) (hok : EnvOk env)
    (hinv : s.browser = none → s.context = none ∧ s.page = none) :
    (SimpleBrowser.close env s).2 = Except.ok ()
    ∧ (SimpleBrowser.close env (SimpleBrowser.close env s).1).2 = Except.ok ()
    ∧ (SimpleBrowser.close env s).1.browser = none
    ∧ (SimpleBrowser.close env s).1.context = none
    ∧ (SimpleBrowser.close env s).1.page = none
    ∧ SimpleBrowser.close env (SimpleBrowser.close env s).1
        = ((SimpleBrowser.close env s).1, Except.ok ())
    ∧ (s.browser = some () →
        (SimpleBrowser.close env s).1.trace = s.trace ++ [Ev.browserClose])
    ∧ (s.browser = none → (SimpleBrowser.close env s).1 = s) := by
  obtain ⟨c1, c2, copen, cnone⟩ := close_spec env s hok
  obtain ⟨d1, -, -, dnone⟩ := close_spec env (SimpleBrowser.close env s).1 hok
  have hsecond : SimpleBrowser.close env (SimpleBrowser.close env s).1
      = ((SimpleBrowser.close env s).1, Except.ok ()) := by
    calc SimpleBrowser.close env (SimpleBrowser.close env s).1
        = ((SimpleBrowser.close env (SimpleBrowser.close env s).1).1,
           (SimpleBrowser.close env (SimpleBrowser.close env s).1).2) := rfl
      _ = ((SimpleBrowser.close env s).1, Except.ok ()) := by rw [dnone c2, d1]
  have hctx : (SimpleBrowser.close env s).1.context = none
      ∧ (SimpleBrowser.close env s).1.page = none := by
    cases hb : s.browser with
    | none =>
      rw [cnone hb]
      exact hinv hb
    | some u =>
      cases u
      rw [copen hb]
      exact ⟨rfl, rfl⟩
  refine ⟨c1, d1, c2, hctx.1, hctx.2, hsecond, ?_, cnone⟩
  intro hb
  rw [copen hb]

/-- C5 (witness): idempotent close at a healthy engine and a concrete
open session. -/
theorem c5_close_idempotent_witness :
    EnvOk env0
    ∧ (openState0.browser = none → openState0.context = none ∧ openState0.page = none)
    ∧ ((SimpleBrowser.close env0 openState0).2 = Except.ok ()
       ∧ (SimpleBrowser.close env0 (SimpleBrowser.close env0 openState0).1).2 = Except.ok ()
       ∧ (SimpleBrowser.close env0 openState0).1.browser = none
       ∧ (SimpleBrowser.close env0 openState0).1.context = none
       ∧ (SimpleBrowser.close env0 openState0).1.page = none
       ∧ SimpleBrowser.close env0 (SimpleBrowser.close env0 openState0).1
           = ((SimpleBrowser.close env0 openState0).1, Except.ok ())
       ∧ (openState0.browser = some () →
           (SimpleBrowser.close env0 openState0).1.trace
             = openState0.trace ++ [Ev.browserClose])
       ∧ (openState0.browser = none → (SimpleBrowser.close env0 openState0).1 = openState0)) :=
  ⟨fun _ => rfl, by decide,
   c5_close_idempotent env0 openState0 (fun _ => rfl) (by decide)⟩

/-- C6: starting from the Unopened state, the first primitive operation —
whichever of the fifteen it is — performs exactly one engine launch
sequence and succeeds, and any sequence of further primitive operations
performs zero additional launches: the launch counter stays at one, so at
most one live automation handle exists per session instance. -/
theorem c6_lazy_open_once (env : Env) (config : Config) (p : PrimOp) (ps : List PrimOp)
    (hok : EnvOk env) :
    (runPrim env p (SimpleBrowser.init config)).2 = Except.ok ()
    ∧ launchCount (runPrim env p (SimpleBrowser.init config)).1.trace = 1
    ∧ launchCount (runPrims env ps (runPrim env p (SimpleBrowser.init config)).1).trace = 1 := by
  obtain ⟨h1, h2, -, h4⟩ := runPrim_spec env p (SimpleBrowser.init config) hok
  have hcount : launchCount (runPrim env p (SimpleBrowser.init config)).1.trace = 1 := by
    rw [h4]
    simp [SimpleBrowser.init, launchCount]
  obtain ⟨-, j2⟩ := runPrims_open env ps hok (runPrim env p (SimpleBrowser.init config)).1 h2
  exact ⟨h1, hcount, by rw [j2, hcount]⟩

/-- C6 (witness): navigate as the first operation, then a click and a
snapshot: one launch total. -/
theorem c6_lazy_open_once_witness :
    EnvOk env0
    ∧ ((runPrim env0 (PrimOp.navigate "https://example.com")
          (SimpleBrowser.init config0)).2 = Except.ok ()
       ∧ launchCount (runPrim env0 (PrimOp.navigate "https://example.com")
           (SimpleBrowser.init config0)).1.trace = 1
       ∧ launchCount (runPrims env0 [PrimOp.click "#btn", PrimOp.snapshot]
           (runPrim env0 (PrimOp.navigate "https://example.com")
             (SimpleBrowser.init config0)).1).trace = 1) :=
  ⟨fun _ => rfl,
   c6_lazy_open_once env0 config0 (PrimOp.navigate "https://example.com")
     [PrimOp.click "#btn", PrimOp.snapshot] (fun _ => rfl)⟩

/-- C7: for every page state (any DOM the engine reports) and any session
state, `snapshot()` under a working engine returns — never an error — a
value of shape {url, title, elements} whose element list contains exactly
the matched interactive elements with a non-empty label, a non-empty id,
or a non-empty class; in particular, with zero matched interactive
elements it returns {url, title, elements := []}. -/
theorem c7_snapshot_filter (env : Env) (s : SimpleBrowser) (hok : EnvOk env) :
    ∃ snap, (SimpleBrowser.snapshot env s).2 = Except.ok snap
      ∧ snap.url = env.pageUrl
      ∧ snap.title = env.pageTitle
      ∧ (∀ el, el ∈ snap.elements ↔
          el ∈ extractElements env.pageDom
            ∧ (el.text ≠ "" ∨ el.id ≠ "" ∨ el.className ≠ ""))
      ∧ (env.pageDom = [] → snap.elements = []) := by
  have hg := snapshot_ok env s hok
  refine ⟨_, by rw [hg], rfl, rfl, ?_, ?_⟩
  · intro el
    simp [List.mem_filter, or_assoc]
  · intro h
    simp [h, extractElements]

/-- C7 (witness): the healthy engine over the empty page: the snapshot is
{url, title, elements := []} and no error occurs. -/
theorem c7_snapshot_filter_witness :
    EnvOk env0
    ∧ (∃ snap, (SimpleBrowser.snapshot env0 (SimpleBrowser.init config0)).2 = Except.ok snap
        ∧ snap.url = env0.pageUrl
        ∧ snap.title = env0.pageTitle
        ∧ (∀ el, el ∈ snap.elements ↔
            el ∈ extractElements env0.pageDom
              ∧ (el.text ≠ "" ∨ el.id ≠ "" ∨ el.className ≠ ""))
        ∧ (env0.pageDom = [] → snap.elements = [])) :=
  ⟨fun _ => rfl, c7_snapshot_filter env0 (SimpleBrowser.init config0) (fun _ => rfl)⟩

/-- C8 (counterexample): with an engine whose `newContext` throws
"ctx boom", `launch()` from the Unopened state fails with the LaunchFailed
message, but the state is NOT left Unopened: `this.browser` is already
assigned (the catch branch never resets it), the page is still null, and
a retry via `ensureLaunched` is a silent no-op — it reports success
without performing a new launch sequence (the launch counter stays 1). -/
theorem c8_counterexample :
    (SimpleBrowser.launch envCtxFail (SimpleBrowser.init config0)).2
      = Except.error ("Failed to launch browser: " ++ "ctx boom")
    ∧ (SimpleBrowser.launch envCtxFail (SimpleBrowser.init config0)).1.browser = some ()
    ∧ (SimpleBrowser.launch envCtxFail (SimpleBrowser.init config0)).1.page = none
    ∧ (SimpleBrowser.ensureLaunched envCtxFail
        (SimpleBrowser.launch envCtxFail (SimpleBrowser.init config0)).1).2 = Except.ok ()
    ∧ launchCount (SimpleBrowser.ensureLaunched envCtxFail
        (SimpleBrowser.launch envCtxFail (SimpleBrowser.init config0)).1).1.trace = 1 :=
  ⟨rfl, rfl, rfl, rfl, rfl⟩

/-- C8 (amended): from the Unopened state, any launch failure surfaces as
an error with the "Failed to launch browser: " prefix; but the state is
left Unopened (browser handle still null, so a retry performs a fresh
launch) exactly when the engine-launch step itself failed — when a later
step (context creation, page creation, timeout setup) fails, the engine
handle remains assigned and subsequent operations do not retry the open
sequence. -/
theorem c8_launch_failure (env : Env) (s : SimpleBrowser) (hb : s.browser = none) :
    ((SimpleBrowser.launch env s).2 = Except.ok true
      ∨ ∃ msg, (SimpleBrowser.launch env s).2 = Except.error (launchFailMsg msg))
    ∧ ((SimpleBrowser.launch env s).1.browser = none
        ↔ env.opResult (Ev.engineLaunch (getBrowserType s.config) s.config.headless)
            ≠ Except.ok ()) := by
  rcases h1 : env.opResult (Ev.engineLaunch (getBrowserType s.config) s.config.headless)
    with m | u
  · constructor
    · exact Or.inr ⟨m, by simp [SimpleBrowser.launch, callEngine, h1]⟩
    · simp [SimpleBrowser.launch, callEngine, h1, hb]
  · cases u
    rcases h2 : env.opResult (Ev.newContext s.config.viewportWidth s.config.viewportHeight)
      with m | u
    · constructor
      · exact Or.inr ⟨m, by simp [SimpleBrowser.launch, callEngine, h1, h2]⟩
      · simp [SimpleBrowser.launch, callEngine, h1, h2]
    · cases u
      rcases h3 : env.opResult Ev.newPage with m | u
      · constructor
        · exact Or.inr ⟨m, by simp [SimpleBrowser.launch, callEngine, h1, h2, h3]⟩
        · simp [SimpleBrowser.launch, callEngine, h1, h2, h3]
      · cases u
        rcases h4 : env.opResult (Ev.setDefaultTimeout s.config.timeout) with m | u
        · constructor
          · exact Or.inr ⟨m, by simp [SimpleBrowser.launch, callEngine, h1, h2, h3, h4]⟩
          · simp [SimpleBrowser.launch, callEngine, h1, h2, h3, h4]
        · cases u
          constructor
          · exact Or.inl (by simp [SimpleBrowser.launch, callEngine, h1, h2, h3, h4])
          · simp [SimpleBrowser.launch, callEngine, h1, h2, h3, h4]

/-- C8 (witness): the amended statement at the context-failure engine and
the fresh session. -/
theorem c8_launch_failure_witness :
    (SimpleBrowser.init config0).browser = none
    ∧ (((SimpleBrowser.launch envCtxFail (SimpleBrowser.init config0)).2 = Except.ok true
        ∨ ∃ msg, (SimpleBrowser.launch envCtxFail (SimpleBrowser.init config0)).2
            = Except.error (launchFailMsg msg))
       ∧ ((SimpleBrowser.launch envCtxFail (SimpleBrowser.init config0)).1.browser = none
          ↔ envCtxFail.opResult
              (Ev.engineLaunch (getBrowserType (SimpleBrowser.init config0).config)
                (SimpleBrowser.init config0).config.headless)
              ≠ Except.ok ())) :=
  ⟨rfl, c8_launch_failure envCtxFail (SimpleBrowser.init config0) rfl⟩

/-- C9: `fillForm(fields)` fills the fields sequentially in the mapping's
insertion order — the engine receives exactly one `page.fill(selector,
value)` call per entry, in entry order — and afterwards every listed
field holds exactly the string mapped to it (the mapping's keys are
object keys, hence pairwise distinct), whatever the order of the pairs. -/
theorem c9_fillForm_roundtrip (env : Env) (s : SimpleBrowser)
    (fields : List (String × String)) (hok : EnvOk env)
    (hnd : (fields.map Prod.fst).Nodup) :
    (SimpleBrowser.fillForm env fields s).2 = Except.ok ()
    ∧ (SimpleBrowser.fillForm env fields s).1.trace
        = s.trace ++ ((if s.browser = none then launchEvents s.config else [])
            ++ fields.map (fun f => Ev.fillCall f.1 f.2))
    ∧ ∀ f ∈ fields,
        lastFill (SimpleBrowser.fillForm env fields s).1.trace f.1 = some f.2 := by
  obtain ⟨h1, -, -, h4⟩ := fillForm_ok env fields s hok
  refine ⟨h1, h4, ?_⟩
  intro f hf
  obtain ⟨k, v⟩ := f
  rw [h4, show s.trace ++ ((if s.browser = none then launchEvents s.config else [])
        ++ fields.map (fun f => Ev.fillCall f.1 f.2))
      = (s.trace ++ (if s.browser = none then launchEvents s.config else []))
        ++ fields.map (fun f => Ev.fillCall f.1 f.2) from
      (List.append_assoc _ _ _).symm]
  rw [lastFill, List.foldl_append]
  exact foldl_fills fields k v _ hf hnd

/-- C9 (witness): the round-trip at the concrete mapping
{"#a": "x", "#b": "y"}: both fields hold their written values. -/
theorem c9_fillForm_roundtrip_witness :
    EnvOk env0
    ∧ ([("#a", "x"), ("#b", "y")].map Prod.fst).Nodup
    ∧ ((SimpleBrowser.fillForm env0 [("#a", "x"), ("#b", "y")]
          (SimpleBrowser.init config0)).2 = Except.ok ()
       ∧ (SimpleBrowser.fillForm env0 [("#a", "x"), ("#b", "y")]
            (SimpleBrowser.init config0)).1.trace
           = (SimpleBrowser.init config0).trace
             ++ ((if (SimpleBrowser.init config0).browser = none
                   then launchEvents (SimpleBrowser.init config0).config else [])
               ++ [("#a", "x"), ("#b", "y")].map (fun f => Ev.fillCall f.1 f.2))
       ∧ ∀ f ∈ [("#a", "x"), ("#b", "y")],
           lastFill (SimpleBrowser.fillForm env0 [("#a", "x"), ("#b", "y")]
             (SimpleBrowser.init config0)).1.trace f.1 = some f.2) :=
  ⟨fun _ => rfl, by decide,
   c9_fillForm_roundtrip env0 (SimpleBrowser.init config0) [("#a", "x"), ("#b", "y")]
     (fun _ => rfl) (by decide)⟩

end Zypin
